import Mathlib

/-!
Shallow embedding of the shop-backend repository (Express + JSON-file store).

The repository contains three revisions of the same `index.js` server:
the optimized revision at `src/index.js` (namespace-free cart routes under
`/api`, an in-memory TTL cache, user registration) and two earlier revisions
kept in `src/unnamed/part_001` (unprefixed routes plus `/api` aliases,
checkout, product comments).  Route handlers are modelled as pure functions
from the parsed JSON state (lists of products / users) and the request
parameters to a status code and the post-write state.  JavaScript numbers
are modelled as `Int` (the handlers only ever do integer arithmetic on
them), absent body fields as `Option`, and the float result of
`toFixed(2)` as exact rational rounding to two decimal places.
-/

namespace Shop

/-- A product comment, body `{ user, text, rating }` as stored in
`products.json`.  Passive fields that no modelled handler reads
(timestamps etc.) are omitted. -/
structure Comment where
  user : String
  text : String
  rating : Int
deriving DecidableEq

/-- A catalog product.  `stock` is `Option Int` because the handlers guard
with `typeof product.stock === "number"`; a missing/non-numeric stock is
`none`.  Passive fields (`title`, `price`, `image`) that the modelled
handlers never read are omitted. -/
structure Product where
  id : Int
  stock : Option Int
  comments : List Comment
deriving DecidableEq

/-- A cart line `{ itemId, quantity }`. -/
structure CartItem where
  itemId : Int
  quantity : Int
deriving DecidableEq

/-- A user as stored by the optimized revision (`src/index.js`): the
derived cart counter is the number field `CartItemsNumber`. -/
structure MUser where
  id : Int
  username : String
  email : String
  password : String
  cartItems : List CartItem
  CartItemsNumber : Int
deriving DecidableEq

/-- The derived counter object `{ items: n }` used by the earlier
revisions in `src/unnamed/part_001`. -/
structure CartLen where
  items : Int
deriving DecidableEq

/-- A user as stored by the earlier revisions (`src/unnamed/part_001`):
the derived cart counter is the object field `CartItemsLength`.  Fields the
cart/checkout handlers never read are omitted. -/
structure LUser where
  id : Int
  cartItems : List CartItem
  CartItemsLength : CartLen
deriving DecidableEq

/-- JavaScript truthiness test `!x` for a possibly absent number field:
`undefined` and `0` are falsy. -/
def numFalsy (x : Option Int) : Bool :=
  x.getD 0 == 0

/-- JavaScript truthiness test `!s` for a possibly absent string field:
`undefined` and the empty string are falsy. -/
def strFalsy (x : Option String) : Bool :=
  x.getD "" == ""

/-- Model of `String.prototype.toLowerCase()` on the character list of the
string. -/
def jsLower (s : String) : String :=
  ⟨s.data.map Char.toLower⟩

/-- Model of `String.prototype.trim()`: strip whitespace from both ends. -/
def jsTrim (s : String) : String :=
  ⟨(((s.data.dropWhile Char.isWhitespace).reverse.dropWhile Char.isWhitespace).reverse)⟩

/-- Model of `String.prototype.length` (the source data is ASCII, so code
units and characters coincide). -/
def jsLength (s : String) : Nat :=
  s.data.length

/-- Model of `String.prototype.includes("@")` / the `email.includes("@")`
check, for a single character. -/
def jsContainsChar (s : String) (c : Char) : Bool :=
  s.data.contains c

/-- Replace the first element satisfying `p` by its image under `f`,
modelling the JavaScript pattern of `find`/`findIndex` followed by an
in-place mutation of the found element. -/
def updateFirst (p : α → Bool) (f : α → α) : List α → List α
  | [] => []
  | x :: xs => if p x then f x :: xs else x :: updateFirst p f xs

/-- Remove the first element satisfying `p`, modelling
`arr.splice(arr.findIndex(p), 1)`. -/
def removeFirst (p : α → Bool) : List α → List α
  | [] => []
  | x :: xs => if p x then xs else x :: removeFirst p xs

/-- `src/index.js` lines 128-131, `calculateCartItemsNumber`: the sum of
`item.quantity || 0` over the cart.  The earlier revisions inline the same
`reduce((s, c) => s + (c.quantity || 0), 0)` expression after every cart
mutation. -/
def calculateCartItemsNumber (cartItems : List CartItem) : Int :=
  cartItems.foldl (fun total item => total + item.quantity) 0

/-- Rounding to two decimal places: the model of `+(x).toFixed(2)` on the
exact rational value (round half up, as `toFixed` does for the positive
values produced by 1-5 ratings). -/
def round2 (q : ℚ) : ℚ :=
  (round (q * 100) : ℚ) / 100

/-- The `reduce((s, c) => s + (c.rating || 0), 0)` sum inside
`averageRating`. -/
def ratingFold (comments : List Comment) : Int :=
  comments.foldl (fun s c => s + c.rating) 0

/-- `src/index.js` lines 122-126 (same helper in both earlier revisions):
`null` for a missing or empty comment list, otherwise the mean of the
ratings rounded to two decimals. -/
def averageRating (comments : List Comment) : Option ℚ :=
  if comments.isEmpty then none
  else some (round2 ((ratingFold comments : ℚ) / (comments.length : ℚ)))

/-- `GET /api/products/:id` (`src/index.js` lines 145-162, identical logic
in the earlier revisions): 404 when the product is missing, otherwise the
product annotated with its freshly computed average rating. -/
def getProduct (products : List Product) (id : Int) :
    Nat × Option (Product × Option ℚ) :=
  match products.find? (fun p => p.id == id) with
  | none => (404, none)
  | some product => (200, some (product, averageRating product.comments))

/-- Cart mutation applied by `POST /api/users/:id/cart` in `src/index.js`
(lines 381-389): accumulate into an existing line or push a new one, then
recompute `CartItemsNumber`. -/
def addMut (itemId quantity : Int) (x : MUser) : MUser :=
  let newCart :=
    if (x.cartItems.find? (fun item => item.itemId == itemId)).isSome then
      updateFirst (fun item => item.itemId == itemId)
        (fun item => { item with quantity := item.quantity + quantity }) x.cartItems
    else
      x.cartItems ++ [{ itemId := itemId, quantity := quantity }]
  { x with cartItems := newCart,
           CartItemsNumber := calculateCartItemsNumber newCart }

/-- `POST /api/users/:id/cart` (`src/index.js` lines 363-397).  Note that
this revision never loads the product collection: there is no existence or
stock check before the item is added. -/
def addToCart (users : List MUser) (userId : Int)
    (itemId? quantity? : Option Int) : Nat × List MUser :=
  if numFalsy itemId? || numFalsy quantity? then (400, users)
  else
    let itemId := itemId?.getD 0
    let quantity := quantity?.getD 0
    if quantity < 1 then (400, users)
    else
      match users.find? (fun u => u.id == userId) with
      | none => (404, users)
      | some _ =>
        (200, updateFirst (fun u => u.id == userId) (addMut itemId quantity) users)

/-- Cart mutation applied by `PATCH /api/users/:id/cart/:itemId` in
`src/index.js` (lines 419-425): quantity 0 filters the line out, a positive
quantity overwrites the found line, then `CartItemsNumber` is recomputed. -/
def patchMut (itemId quantity : Int) (x : MUser) : MUser :=
  let newCart :=
    if quantity == 0 then
      x.cartItems.filter (fun item => item.itemId != itemId)
    else
      updateFirst (fun item => item.itemId == itemId)
        (fun item => { item with quantity := quantity }) x.cartItems
  { x with cartItems := newCart,
           CartItemsNumber := calculateCartItemsNumber newCart }

/-- `PATCH /api/users/:id/cart/:itemId` (`src/index.js` lines 399-433).
The product collection is never consulted: there is no stock check on this
path. -/
def patchCart (users : List MUser) (userId itemId : Int)
    (quantity? : Option Int) : Nat × List MUser :=
  match quantity? with
  | none => (400, users)
  | some quantity =>
    if quantity < 0 then (400, users)
    else
      match users.find? (fun u => u.id == userId) with
      | none => (404, users)
      | some u =>
        if (u.cartItems.find? (fun item => item.itemId == itemId)).isNone then
          (404, users)
        else
          (200, updateFirst (fun x => x.id == userId) (patchMut itemId quantity) users)

/-- Cart mutation applied by `DELETE /api/users/:id/cart/:itemId` in
`src/index.js` (lines 444-445). -/
def delMut (itemId : Int) (x : MUser) : MUser :=
  let newCart := x.cartItems.filter (fun item => item.itemId != itemId)
  { x with cartItems := newCart,
           CartItemsNumber := calculateCartItemsNumber newCart }

/-- `DELETE /api/users/:id/cart/:itemId` (`src/index.js` lines 435-453).
The line is filtered out without checking that it was present, so the
request succeeds (200) even when the cart has no such line. -/
def deleteCart (users : List MUser) (userId itemId : Int) : Nat × List MUser :=
  match users.find? (fun u => u.id == userId) with
  | none => (404, users)
  | some _ =>
    (200, updateFirst (fun u => u.id == userId) (delMut itemId) users)

/-- `Math.max(...users.map(u => u.id), 0)` from `POST /api/users`
(`src/index.js` line 240). -/
def maxId (users : List MUser) : Int :=
  (users.map (fun u => u.id)).foldl max 0

/-- `POST /api/users` (`src/index.js` lines 193-257): field validation,
duplicate checks (stored email against the lower-cased input, usernames
case-insensitively), then append a user with id `Math.max(...ids, 0) + 1`,
an empty cart and a zero derived counter. -/
def createUser (users : List MUser)
    (username? email? password? : Option String) : Nat × List MUser :=
  if strFalsy username? || strFalsy email? || strFalsy password? then (400, users)
  else
    let username := username?.getD ""
    let email := email?.getD ""
    let password := password?.getD ""
    if jsLength username < 3 then (400, users)
    else if !(jsContainsChar email '@') then (400, users)
    else if jsLength password < 6 then (400, users)
    else if (users.find? (fun u => u.email == jsLower email)).isSome then (409, users)
    else if (users.find? (fun u => jsLower u.username == jsLower username)).isSome then
      (409, users)
    else
      let newUser : MUser :=
        { id := maxId users + 1
          username := jsTrim username
          email := jsLower (jsTrim email)
          password := password
          cartItems := []
          CartItemsNumber := 0 }
      (201, users ++ [newUser])

/-- The per-cart-line quantity `ci.quantity || 0` plus lookup of the
existing cart line used by the `/api` add-to-cart of
`src/unnamed/part_001` (lines 332-334 and 628-629). -/
def existingQtyOf (u : LUser) (itemId : Int) : Int :=
  match u.cartItems.find? (fun ci => ci.itemId == itemId) with
  | some e => e.quantity
  | none => 0

/-- Cart mutation applied by the `/api` add-to-cart of
`src/unnamed/part_001` (lines 343-351 and 640-648): accumulate into an
existing line or push a new one, then store the recomputed
`CartItemsLength` object. -/
def lAddMut (itemId quantity : Int) (x : LUser) : LUser :=
  let newCart :=
    if (x.cartItems.find? (fun ci => ci.itemId == itemId)).isSome then
      updateFirst (fun ci => ci.itemId == itemId)
        (fun ci => { ci with quantity := ci.quantity + quantity }) x.cartItems
    else
      x.cartItems ++ [{ itemId := itemId, quantity := quantity }]
  { x with cartItems := newCart,
           CartItemsLength := { items := calculateCartItemsNumber newCart } }

/-- `POST /api/users/:id/cart` of `src/unnamed/part_001` (lines 309-359;
lines 607-655 of the other revision are the same logic): body validation,
product existence check (400), user lookup (404), cumulative stock check
(400 when `existingQty + quantity > product.stock` and the stock is
numeric), then the cart mutation and a 201 response. -/
def apiAddToCart (products : List Product) (users : List LUser) (id : Int)
    (itemId? quantity? : Option Int) : Nat × List LUser :=
  let quantity := quantity?.getD 1
  match itemId? with
  | none => (400, users)
  | some itemId =>
    if quantity ≤ 0 then (400, users)
    else
      match products.find? (fun p => p.id == itemId) with
      | none => (400, users)
      | some product =>
        match users.find? (fun u => u.id == id) with
        | none => (404, users)
        | some u =>
          let stockExceeded : Bool :=
            match product.stock with
            | some s => s < existingQtyOf u itemId + quantity
            | none => false
          if stockExceeded then (400, users)
          else (201, updateFirst (fun x => x.id == id) (lAddMut itemId quantity) users)

/-- `POST /users/:id/cart` of `src/unnamed/part_001` (lines 138-197), the
unprefixed route.  After the body and product-existence checks it
evaluates `users[idx]` (line 158) before the `const users` / `const idx`
declarations of lines 173-174 are initialized, which raises a reference
error in the temporal dead zone; the `catch` block then responds 500 and
nothing is written. -/
def plainAddToCart (products : List Product) (users : List LUser) (id : Int)
    (itemId? quantity? : Option Int) : Nat × List LUser :=
  let quantity := quantity?.getD 1
  match itemId? with
  | none => (400, users)
  | some itemId =>
    if quantity ≤ 0 then (400, users)
    else
      match products.find? (fun p => p.id == itemId) with
      | none => (400, users)
      | some _ => (500, users)

/-- Cart mutation applied by `PATCH /users/:id/cart/:itemId` of
`src/unnamed/part_001` (lines 219-227 and 380-388): quantity 0 splices out
the found line, a positive quantity overwrites it, then `CartItemsLength`
is recomputed. -/
def lPatchMut (itemId quantity : Int) (x : LUser) : LUser :=
  let newCart :=
    if quantity == 0 then
      removeFirst (fun ci => ci.itemId == itemId) x.cartItems
    else
      updateFirst (fun ci => ci.itemId == itemId)
        (fun ci => { ci with quantity := quantity }) x.cartItems
  { x with cartItems := newCart,
           CartItemsLength := { items := calculateCartItemsNumber newCart } }

/-- `PATCH /users/:id/cart/:itemId` and its `/api` alias in
`src/unnamed/part_001` (lines 200-235 and 361-396, identical logic).  The
product collection is never consulted: there is no stock check on this
path. -/
def lPatchCart (users : List LUser) (id itemId : Int)
    (quantity? : Option Int) : Nat × List LUser :=
  match quantity? with
  | none => (400, users)
  | some quantity =>
    if quantity < 0 then (400, users)
    else
      match users.find? (fun u => u.id == id) with
      | none => (404, users)
      | some u =>
        if (u.cartItems.find? (fun ci => ci.itemId == itemId)).isNone then
          (404, users)
        else
          (200, updateFirst (fun x => x.id == id) (lPatchMut itemId quantity) users)

/-- Cart mutation applied by `DELETE /users/:id/cart/:itemId` of
`src/unnamed/part_001` (lines 450-455). -/
def lDelMut (itemId : Int) (x : LUser) : LUser :=
  let newCart := x.cartItems.filter (fun ci => ci.itemId != itemId)
  { x with cartItems := newCart,
           CartItemsLength := { items := calculateCartItemsNumber newCart } }

/-- `DELETE /users/:id/cart/:itemId` of `src/unnamed/part_001` (lines
442-464).  As in the optimized revision, the line is filtered out without
checking that it was present, so the request succeeds (200) even when the
cart has no such line. -/
def lDeleteCart (users : List LUser) (id itemId : Int) : Nat × List LUser :=
  match users.find? (fun u => u.id == id) with
  | none => (404, users)
  | some _ =>
    (200, updateFirst (fun u => u.id == id) (lDelMut itemId) users)

/-- The distinct response bodies of the checkout handler
(`src/unnamed/part_001` lines 238-282 and 398-439). -/
inductive CheckoutResp where
  | userNotFound
  | cartEmpty
  | productMissing (itemId : Int)
  | insufficientStock (itemId : Int)
  | success
deriving DecidableEq

/-- HTTP status of each checkout response. -/
def CheckoutResp.statusCode : CheckoutResp → Nat
  | .userNotFound => 404
  | .cartEmpty => 400
  | .productMissing _ => 400
  | .insufficientStock _ => 400
  | .success => 200

/-- One step of the checkout decrement loop (`src/unnamed/part_001` lines
423-426): `products.find(p => p.id === ci.itemId).stock -= ci.quantity`,
mutating the first matching product.  The loop only runs after validation
guaranteed the stock is numeric, so the `Option.map` is always on a
`some`. -/
def decStep (products : List Product) (ci : CartItem) : List Product :=
  updateFirst (fun p => p.id == ci.itemId)
    (fun p => { p with stock := p.stock.map (fun s => s - ci.quantity) }) products

/-- The checkout validation loop (`src/unnamed/part_001` lines 410-421):
the first cart line whose product is missing yields the product-missing
error, the first line whose product has no numeric stock or too little
stock yields the insufficient-stock error; `none` when all lines pass. -/
def findCartError (products : List Product) : List CartItem → Option CheckoutResp
  | [] => none
  | ci :: rest =>
    match products.find? (fun p => p.id == ci.itemId) with
    | none => some (.productMissing ci.itemId)
    | some prod =>
      match prod.stock with
      | none => some (.insufficientStock ci.itemId)
      | some s =>
        if s < ci.quantity then some (.insufficientStock ci.itemId)
        else findCartError products rest

/-- Validity of a single cart line against the catalog: the referenced
product exists, has numeric stock, and the stock covers the quantity. -/
def cartLineOk (products : List Product) (ci : CartItem) : Bool :=
  match products.find? (fun p => p.id == ci.itemId) with
  | none => false
  | some prod =>
    match prod.stock with
    | none => false
    | some s => decide (ci.quantity ≤ s)

/-- Clearing of the user after a successful checkout
(`src/unnamed/part_001` lines 428-429). -/
def clearCartMut (x : LUser) : LUser :=
  { x with cartItems := [], CartItemsLength := { items := 0 } }

/-- `POST /users/:id/checkout` and its `/api` alias
(`src/unnamed/part_001` lines 238-282 and 398-439, identical logic): user
lookup (404), empty-cart check (400), validation of every cart line
without mutating anything, and only if all lines pass, the stock
decrements, the cart clearing and the 200 response. -/
def checkout (products : List Product) (users : List LUser) (id : Int) :
    CheckoutResp × List Product × List LUser :=
  match users.find? (fun x => x.id == id) with
  | none => (.userNotFound, products, users)
  | some u =>
    if u.cartItems.isEmpty then (.cartEmpty, products, users)
    else
      match findCartError products u.cartItems with
      | some e => (e, products, users)
      | none =>
        (.success,
         u.cartItems.foldl decStep products,
         updateFirst (fun x => x.id == id) clearCartMut users)

/-- `POST /api/products/:id/comments` (`src/unnamed/part_001` lines 70-110
and 545-580, identical logic): require a truthy `user` and `text`, an
integer rating in 1-5 (`Number(undefined)` is `NaN`, hence `none` is
rejected), a 404 for a missing product, then append the comment and
respond 201 with the product annotated with the recomputed average
rating.  No handler ever checks the number of comments already present. -/
def addComment (products : List Product) (id : Int)
    (user? text? : Option String) (rating? : Option Int) :
    Nat × List Product :=
  if strFalsy user? || strFalsy text? then (400, products)
  else
    match rating? with
    | none => (400, products)
    | some numericRating =>
      if numericRating < 1 || 5 < numericRating then (400, products)
      else
        match products.find? (fun p => p.id == id) with
        | none => (404, products)
        | some _ =>
          (201, updateFirst (fun p => p.id == id)
            (fun p => { p with comments :=
              p.comments ++ [{ user := user?.getD "", text := text?.getD "",
                               rating := numericRating }] }) products)

/-- An in-memory cache slot (`src/index.js` lines 21-24): a snapshot of
the parsed collection and the time it was taken. -/
structure Cache (α : Type) where
  data : Option α
  time : Int
deriving DecidableEq

/-- `src/index.js` line 22. -/
def CACHE_TTL : Int := 5000

/-- `src/index.js` lines 26-28: a cache is valid when a snapshot exists
and its age is below the TTL. -/
def isCacheValid {α : Type} (cache : Cache α) (now : Int) : Bool :=
  cache.data.isSome && decide (now - cache.time < CACHE_TTL)

/-- `readProducts` / `readUsers` (`src/index.js` lines 84-102): return the
snapshot when the cache is valid, otherwise the freshly parsed backing
file, refreshing the cache.  The file is modelled by its parsed value;
`getD file` is only the `Option` eliminator, `isCacheValid` guarantees the
snapshot is present on that branch. -/
def readResource {α : Type} (file : α) (cache : Cache α) (now : Int) :
    α × Cache α :=
  if isCacheValid cache now then (cache.data.getD file, cache)
  else (file, { data := some file, time := now })

/-- `writeUsers` / `writeProducts` (`src/index.js` lines 104-120): write
the collection to the backing file and synchronously overwrite the cache
with it, resetting the timestamp. -/
def writeResource {α : Type} (dataVal : α) (now : Int) : α × Cache α :=
  (dataVal, { data := some dataVal, time := now })

/-! Helper lemmas about the list combinators used by the handlers. -/

theorem find?_updateFirst_pos {α : Type} (p : α → Bool) (f : α → α)
    (hf : ∀ x, p (f x) = p x) :
    ∀ l : List α, (updateFirst p f l).find? p = (l.find? p).map f := by
  intro l
  induction l with
  | nil => rfl
  | cons x xs ih =>
    by_cases hx : p x = true
    · rw [updateFirst, if_pos hx, List.find?_cons_of_pos _ ((hf x).trans hx),
        List.find?_cons_of_pos _ hx]
      rfl
    · rw [updateFirst, if_neg hx,
        List.find?_cons_of_neg _ (by simpa using hx),
        List.find?_cons_of_neg _ (by simpa using hx), ih]

theorem find?_updateFirst_neg {α : Type} (p q : α → Bool) (f : α → α)
    (hq : ∀ x, q (f x) = q x) (hpq : ∀ x, q x = true → p x = false) :
    ∀ l : List α, (updateFirst p f l).find? q = l.find? q := by
  intro l
  induction l with
  | nil => rfl
  | cons x xs ih =>
    by_cases hx : p x = true
    · have hqx : q x = false := by
        by_cases h : q x = true
        · exact absurd hx (by simp [hpq x h])
        · simpa using h
      rw [updateFirst, if_pos hx,
        List.find?_cons_of_neg _ (by simp [hq x, hqx]),
        List.find?_cons_of_neg _ (by simp [hqx])]
    · by_cases hxq : q x = true
      · rw [updateFirst, if_neg hx, List.find?_cons_of_pos _ hxq,
          List.find?_cons_of_pos _ hxq]
      · rw [updateFirst, if_neg hx,
          List.find?_cons_of_neg _ (by simpa using hxq),
          List.find?_cons_of_neg _ (by simpa using hxq), ih]

theorem find?_decStep_ne (ps : List Product) (ci : CartItem) (k : Int)
    (h : ci.itemId ≠ k) :
    (decStep ps ci).find? (fun p => p.id == k) = ps.find? (fun p => p.id == k) := by
  apply find?_updateFirst_neg
  · intro x; rfl
  · intro x hx
    have hxk : x.id = k := by simpa using hx
    rw [hxk]
    exact beq_eq_false_iff_ne.mpr (fun hh => h hh.symm)

theorem find?_foldl_decStep_not_mem (k : Int) :
    ∀ (cart : List CartItem) (ps : List Product),
      (∀ ci ∈ cart, ci.itemId ≠ k) →
      (cart.foldl decStep ps).find? (fun p => p.id == k) =
        ps.find? (fun p => p.id == k) := by
  intro cart
  induction cart with
  | nil => intro ps _; rfl
  | cons c rest ih =>
    intro ps h
    rw [List.foldl_cons, ih (decStep ps c) (fun ci hci => h ci (List.mem_cons_of_mem _ hci)),
      find?_decStep_ne ps c k (h c (List.mem_cons_self _ _))]

theorem find?_foldl_decStep_target :
    ∀ (cart : List CartItem) (ps : List Product) (ci : CartItem),
      ci ∈ cart → (cart.map (fun c => c.itemId)).Nodup →
      (cart.foldl decStep ps).find? (fun p => p.id == ci.itemId) =
        (ps.find? (fun p => p.id == ci.itemId)).map
          (fun p => { p with stock := p.stock.map (fun s => s - ci.quantity) }) := by
  intro cart
  induction cart with
  | nil => intro ps ci h; exact absurd h (List.not_mem_nil ci)
  | cons c rest ih =>
    intro ps ci hmem hnd
    rw [List.map_cons, List.nodup_cons] at hnd
    rcases List.mem_cons.mp hmem with hceq | hrest
    · subst hceq
      rw [List.foldl_cons,
        find?_foldl_decStep_not_mem ci.itemId rest (decStep ps ci)
          (fun c2 hc2 hk => hnd.1 (hk ▸ List.mem_map_of_mem (fun x => x.itemId) hc2))]
      exact find?_updateFirst_pos (fun p => p.id == ci.itemId)
        (fun p => { p with stock := p.stock.map (fun s => s - ci.quantity) })
        (fun x => rfl) ps
    · have hne : c.itemId ≠ ci.itemId := by
        intro hk
        exact hnd.1 (hk ▸ List.mem_map_of_mem (fun x => x.itemId) hrest)
      rw [List.foldl_cons, ih (decStep ps c) ci hrest hnd.2,
        find?_decStep_ne ps c ci.itemId hne]

theorem cartLineOk_iff (products : List Product) (ci : CartItem) :
    cartLineOk products ci = true ↔
      ∃ p s, products.find? (fun p2 => p2.id == ci.itemId) = some p ∧
        p.stock = some s ∧ ci.quantity ≤ s := by
  unfold cartLineOk
  cases hfind : products.find? (fun p2 => p2.id == ci.itemId) with
  | none => simp
  | some prod =>
    cases hst : prod.stock with
    | none => simp [hst]
    | some s => simp [hst]

theorem findCartError_none_iff (products : List Product) :
    ∀ cart : List CartItem,
      findCartError products cart = none ↔ ∀ ci ∈ cart, cartLineOk products ci = true := by
  intro cart
  induction cart with
  | nil => simp [findCartError]
  | cons ci rest ih =>
    unfold findCartError
    cases hfind : products.find? (fun p => p.id == ci.itemId) with
    | none => simp [cartLineOk, hfind]
    | some prod =>
      cases hst : prod.stock with
      | none => simp [cartLineOk, hfind, hst]
      | some s =>
        by_cases hlt : s < ci.quantity
        · simp [hlt, cartLineOk, hfind, hst, Int.not_le.mpr hlt]
        · simp only [if_neg hlt, ih, List.forall_mem_cons, cartLineOk, hfind, hst]
          simp [Int.not_lt.mp hlt]

theorem findCartError_some_status (products : List Product) :
    ∀ (cart : List CartItem) (e : CheckoutResp),
      findCartError products cart = some e → e.statusCode = 400 := by
  intro cart
  induction cart with
  | nil => intro e h; exact absurd h (by simp [findCartError])
  | cons ci rest ih =>
    intro e h
    unfold findCartError at h
    split at h
    · cases h; rfl
    · split at h
      · cases h; rfl
      · split at h
        · cases h; rfl
        · exact ih e h

theorem foldl_add_quantity (cart : List CartItem) :
    ∀ a : Int, cart.foldl (fun total item => total + item.quantity) a =
      a + (cart.map (fun c => c.quantity)).sum := by
  induction cart with
  | nil => intro a; simp
  | cons c rest ih =>
    intro a
    rw [List.foldl_cons, ih, List.map_cons, List.sum_cons]
    ring

theorem calculateCartItemsNumber_eq_sum (cart : List CartItem) :
    calculateCartItemsNumber cart = (cart.map (fun c => c.quantity)).sum := by
  rw [calculateCartItemsNumber, foldl_add_quantity, zero_add]

theorem ratingFold_eq_sum (comments : List Comment) :
    (ratingFold comments : ℚ) = (comments.map (fun c => (c.rating : ℚ))).sum := by
  have h : ∀ a : Int, comments.foldl (fun s c => s + c.rating) a =
      a + (comments.map (fun c => c.rating)).sum := by
    induction comments with
    | nil => intro a; simp
    | cons c rest ih =>
      intro a
      rw [List.foldl_cons, ih, List.map_cons, List.sum_cons]
      ring
  rw [ratingFold, h, zero_add]
  push_cast
  rw [List.map_map]
  rfl

theorem init_le_foldl_max (l : List Int) : ∀ a : Int, a ≤ l.foldl max a := by
  induction l with
  | nil => intro a; simp
  | cons y ys ih =>
    intro a
    calc a ≤ max a y := le_max_left a y
      _ ≤ ys.foldl max (max a y) := ih (max a y)

theorem le_foldl_max (l : List Int) :
    ∀ (a x : Int), x ∈ l → x ≤ l.foldl max a := by
  induction l with
  | nil => intro a x h; exact absurd h (List.not_mem_nil x)
  | cons y ys ih =>
    intro a x h
    rcases List.mem_cons.mp h with rfl | hmem
    · calc x ≤ max a x := le_max_right a x
        _ ≤ ys.foldl max (max a x) := init_le_foldl_max ys (max a x)
    · exact ih (max a y) x hmem

theorem foldl_max_attained (l : List Int) :
    ∀ a : Int, l.foldl max a = a ∨ ∃ m ∈ l, l.foldl max a = m := by
  induction l with
  | nil => intro a; exact Or.inl rfl
  | cons y ys ih =>
    intro a
    rcases ih (max a y) with h | ⟨m, hm, hfold⟩
    · rw [List.foldl_cons, h]
      rcases max_choice a y with hmax | hmax
      · exact Or.inl hmax
      · exact Or.inr ⟨y, List.mem_cons_self _ _, hmax⟩
    · exact Or.inr ⟨m, List.mem_cons_of_mem _ hm, by rw [List.foldl_cons, hfold]⟩

theorem isEmpty_false_of_ne_nil {α : Type} {l : List α} (h : l ≠ []) :
    l.isEmpty = false := by
  cases l with
  | nil => exact absurd rfl h
  | cons x xs => rfl

/-! Claim theorems. -/

/-- C1: for every user with a non-empty cart, if checkout finds some cart
line whose quantity exceeds the referenced product's numeric stock, whose
product has no numeric stock, or whose product does not exist, then the
checkout request returns a 400 response and both the product collection
and the user collection (hence the user's cart) are exactly the state
before the request: all lines are validated before any stock decrement. -/
theorem checkout_bad_line_rejects_without_mutation
    (products : List Product) (users : List LUser) (uid : Int) (u : LUser)
    (hu : users.find? (fun x => x.id == uid) = some u)
    (hne : u.cartItems ≠ [])
    (hbad : ∃ ci ∈ u.cartItems,
      products.find? (fun p => p.id == ci.itemId) = none ∨
        ∃ p, products.find? (fun p2 => p2.id == ci.itemId) = some p ∧
          (p.stock = none ∨ ∃ s, p.stock = some s ∧ s < ci.quantity)) :
    ∃ e, checkout products users uid = (e, products, users) ∧
      CheckoutResp.statusCode e = 400 := by
  obtain ⟨ci, hci, hviol⟩ := hbad
  have hnotok : ¬ ∀ c ∈ u.cartItems, cartLineOk products c = true := by
    intro hall
    have hok := (cartLineOk_iff products ci).mp (hall ci hci)
    obtain ⟨p, s, hfind, hst, hle⟩ := hok
    rcases hviol with hnone | ⟨p2, hfind2, hrest⟩
    · rw [hfind] at hnone
      cases hnone
    · rw [hfind] at hfind2
      cases hfind2
      rcases hrest with hnone | ⟨s2, hst2, hlt⟩
      · rw [hst] at hnone
        cases hnone
      · rw [hst] at hst2
        cases hst2
        exact absurd hle (Int.not_le.mpr hlt)
  have herr : findCartError products u.cartItems ≠ none := by
    intro hnone
    exact hnotok ((findCartError_none_iff products u.cartItems).mp hnone)
  obtain ⟨e, he⟩ := Option.ne_none_iff_exists.mp herr
  refine ⟨e, ?_, findCartError_some_status products u.cartItems e he.symm⟩
  unfold checkout
  rw [hu]
  simp only [isEmpty_false_of_ne_nil hne, Bool.false_eq_true, if_false]
  rw [← he]

/-- C1 witness: a concrete single-user, single-product state where the
cart asks for 2 units but only 1 is in stock. -/
theorem checkout_bad_line_witness :
    ∃ e, checkout [⟨1, some 1, []⟩] [⟨1, [⟨1, 2⟩], ⟨2⟩⟩] 1 =
        (e, [⟨1, some 1, []⟩], [⟨1, [⟨1, 2⟩], ⟨2⟩⟩]) ∧
      CheckoutResp.statusCode e = 400 :=
  checkout_bad_line_rejects_without_mutation
    [⟨1, some 1, []⟩] [⟨1, [⟨1, 2⟩], ⟨2⟩⟩] 1 ⟨1, [⟨1, 2⟩], ⟨2⟩⟩
    (by decide) (by decide)
    ⟨⟨1, 2⟩, by decide, Or.inr ⟨⟨1, some 1, []⟩, by decide, Or.inr ⟨1, rfl, by decide⟩⟩⟩

/-- C3: for every user whose cart is non-empty, references pairwise
distinct items, and where every line's quantity is at most the referenced
product's numeric stock, checkout succeeds (200), decrements each
referenced product's stock by exactly that line's quantity, empties the
user's cart and sets the derived count object to 0; repeating checkout on
the resulting state returns the empty-cart error, not a stock error. -/
theorem checkout_success_decrements_and_clears
    (products : List Product) (users : List LUser) (uid : Int) (u : LUser)
    (hu : users.find? (fun x => x.id == uid) = some u)
    (hne : u.cartItems ≠ [])
    (hok : ∀ ci ∈ u.cartItems, ∃ p s,
      products.find? (fun p2 => p2.id == ci.itemId) = some p ∧
        p.stock = some s ∧ ci.quantity ≤ s)
    (hnodup : (u.cartItems.map (fun c => c.itemId)).Nodup) :
    (checkout products users uid).1 = CheckoutResp.success ∧
    (∀ ci ∈ u.cartItems, ∀ p s,
      products.find? (fun p2 => p2.id == ci.itemId) = some p →
      p.stock = some s →
      (checkout products users uid).2.1.find? (fun p2 => p2.id == ci.itemId) =
        some { p with stock := some (s - ci.quantity) }) ∧
    ((checkout products users uid).2.2.find? (fun x => x.id == uid) =
      some { u with cartItems := [], CartItemsLength := ⟨0⟩ }) ∧
    (checkout (checkout products users uid).2.1 (checkout products users uid).2.2 uid =
      (CheckoutResp.cartEmpty, (checkout products users uid).2.1,
        (checkout products users uid).2.2)) := by
  have herr : findCartError products u.cartItems = none :=
    (findCartError_none_iff products u.cartItems).mpr
      (fun ci hci => (cartLineOk_iff products ci).mpr (hok ci hci))
  have hrun : checkout products users uid =
      (CheckoutResp.success, u.cartItems.foldl decStep products,
        updateFirst (fun x => x.id == uid) clearCartMut users) := by
    unfold checkout
    rw [hu]
    simp only [isEmpty_false_of_ne_nil hne, Bool.false_eq_true, if_false]
    rw [herr]
  have husers : (updateFirst (fun x => x.id == uid) clearCartMut users).find?
      (fun x => x.id == uid) = some (clearCartMut u) := by
    rw [find?_updateFirst_pos (fun x => x.id == uid) clearCartMut (fun x => rfl) users, hu]
    rfl
  refine ⟨by rw [hrun], ?_, ?_, ?_⟩
  · intro ci hci p s hfind hst
    rw [hrun]
    have := find?_foldl_decStep_target u.cartItems products ci hci hnodup
    rw [this, hfind]
    simp [hst]
  · rw [hrun]
    exact husers
  · rw [hrun]
    unfold checkout
    rw [husers]
    rfl

/-- C3 witness: one user, one product with exactly enough stock; checkout
zeroes the stock, clears the cart and a second checkout hits the
empty-cart error. -/
theorem checkout_success_witness :
    (checkout [⟨1, some 5, []⟩] [⟨1, [⟨1, 5⟩], ⟨5⟩⟩] 1).1 = CheckoutResp.success ∧
    (∀ ci ∈ ([⟨1, 5⟩] : List CartItem), ∀ p s,
      ([⟨1, some 5, []⟩] : List Product).find? (fun p2 => p2.id == ci.itemId) = some p →
      p.stock = some s →
      (checkout [⟨1, some 5, []⟩] [⟨1, [⟨1, 5⟩], ⟨5⟩⟩] 1).2.1.find?
          (fun p2 => p2.id == ci.itemId) =
        some { p with stock := some (s - ci.quantity) }) ∧
    ((checkout [⟨1, some 5, []⟩] [⟨1, [⟨1, 5⟩], ⟨5⟩⟩] 1).2.2.find?
        (fun x => x.id == 1) = some ⟨1, [], ⟨0⟩⟩) ∧
    (checkout (checkout [⟨1, some 5, []⟩] [⟨1, [⟨1, 5⟩], ⟨5⟩⟩] 1).2.1
        (checkout [⟨1, some 5, []⟩] [⟨1, [⟨1, 5⟩], ⟨5⟩⟩] 1).2.2 1 =
      (CheckoutResp.cartEmpty, (checkout [⟨1, some 5, []⟩] [⟨1, [⟨1, 5⟩], ⟨5⟩⟩] 1).2.1,
        (checkout [⟨1, some 5, []⟩] [⟨1, [⟨1, 5⟩], ⟨5⟩⟩] 1).2.2)) :=
  checkout_success_decrements_and_clears
    [⟨1, some 5, []⟩] [⟨1, [⟨1, 5⟩], ⟨5⟩⟩] 1 ⟨1, [⟨1, 5⟩], ⟨5⟩⟩
    (by decide) (by decide)
    (by
      intro ci hci
      have hc : ci = ⟨1, 5⟩ := by
        cases List.mem_singleton.mp hci
        rfl
      rw [hc]
      exact ⟨⟨1, some 5, []⟩, 5, by decide, rfl, by decide⟩)
    (by decide)

/-- C2: the optimized revision's add-to-cart (`src/index.js` lines
363-397) never loads the product collection, so with an empty catalog and
itemId 999 it still answers 200 and stores the line — contradicting the
claimed product-existence/stock rejection, which only the earlier
revision's `/api` add-to-cart performs (conjuncts 2 and 3); the PATCH
path indeed performs no stock check, so a huge positive quantity is
accepted (conjunct 4). -/
theorem addToCart_stock_check_only_in_earlier_revision :
    addToCart [⟨1, "u", "e", "p", [], 0⟩] 1 (some 999) (some 1) =
      (200, [⟨1, "u", "e", "p", [⟨999, 1⟩], 1⟩]) ∧
    apiAddToCart [] [⟨1, [], ⟨0⟩⟩] 1 (some 999) (some 1) = (400, [⟨1, [], ⟨0⟩⟩]) ∧
    apiAddToCart [⟨1, some 2, []⟩] [⟨1, [⟨1, 2⟩], ⟨2⟩⟩] 1 (some 1) (some 1) =
      (400, [⟨1, [⟨1, 2⟩], ⟨2⟩⟩]) ∧
    (patchCart [⟨1, "u", "e", "p", [⟨1, 50⟩], 50⟩] 1 1 (some 1000000)).1 = 200 := by
  refine ⟨by decide, by decide, by decide, by decide⟩

/-- C4: the unprefixed `POST /users/:id/cart` and its `/api` alias are not
behavioural aliases: on the same state and request (existing user 1 with
an empty cart, product 1 with stock 5, adding one unit) the unprefixed
handler answers 500 (temporal-dead-zone reference error caught by its
`catch`) with the state unchanged, while the `/api` handler answers 201. -/
theorem plain_and_api_add_routes_diverge :
    plainAddToCart [⟨1, some 5, []⟩] [⟨1, [], ⟨0⟩⟩] 1 (some 1) (some 1) =
      (500, [⟨1, [], ⟨0⟩⟩]) ∧
    (apiAddToCart [⟨1, some 5, []⟩] [⟨1, [], ⟨0⟩⟩] 1 (some 1) (some 1)).1 = 201 ∧
    (500 : Nat) ≠ 201 := by
  refine ⟨by decide, by decide, by decide⟩

set_option maxRecDepth 10000 in
/-- C5: the comment handler has no comment-count ceiling: on a product
that already holds 1000 comments (the documented maximum) a valid comment
is still appended (the stored product then has 1001 comments) and the
response is 201, not a rejection. -/
theorem addComment_ignores_comment_ceiling :
    (addComment [⟨1, some 5, List.replicate 1000 ⟨"a", "t", 5⟩⟩] 1
        (some "bob") (some "hi") (some 4)).1 = 201 ∧
    ((addComment [⟨1, some 5, List.replicate 1000 ⟨"a", "t", 5⟩⟩] 1
        (some "bob") (some "hi") (some 4)).2.map
      (fun p => p.comments.length)) = [1001] := by
  refine ⟨rfl, by decide⟩

/-- C6 counterexample: DELETE of a cart line that is not present (user 1
exists, cart empty, itemId 7) answers 200, not the claimed 404. -/
theorem deleteCart_missing_line_returns_200 :
    (deleteCart [⟨1, "u", "e", "p", [], 0⟩] 1 7).1 = 200 ∧
    (deleteCart [⟨1, "u", "e", "p", [], 0⟩] 1 7).1 ≠ 404 := by
  refine ⟨by decide, by decide⟩

/-- C6 amended: when the user exists but no cart line with the given
itemId is present, PATCH (with a well-formed non-negative quantity)
answers 404 leaving the collection unchanged — in both revisions — while
DELETE filters nothing out and answers 200 in both revisions. -/
theorem missing_cart_line_patch_404_delete_200 :
    (∀ (users : List MUser) (uid itemId q : Int) (u : MUser), 0 ≤ q →
      users.find? (fun x => x.id == uid) = some u →
      u.cartItems.find? (fun c => c.itemId == itemId) = none →
      patchCart users uid itemId (some q) = (404, users)) ∧
    (∀ (users : List LUser) (uid itemId q : Int) (u : LUser), 0 ≤ q →
      users.find? (fun x => x.id == uid) = some u →
      u.cartItems.find? (fun c => c.itemId == itemId) = none →
      lPatchCart users uid itemId (some q) = (404, users)) ∧
    (∀ (users : List MUser) (uid itemId : Int) (u : MUser),
      users.find? (fun x => x.id == uid) = some u →
      u.cartItems.find? (fun c => c.itemId == itemId) = none →
      (deleteCart users uid itemId).1 = 200) ∧
    (∀ (users : List LUser) (uid itemId : Int) (u : LUser),
      users.find? (fun x => x.id == uid) = some u →
      u.cartItems.find? (fun c => c.itemId == itemId) = none →
      (lDeleteCart users uid itemId).1 = 200) := by
  refine ⟨?_, ?_, ?_, ?_⟩
  · intro users uid itemId q u hq hu hmiss
    simp only [patchCart]
    rw [hu]
    simp [hmiss, Int.not_lt.mpr hq]
  · intro users uid itemId q u hq hu hmiss
    simp only [lPatchCart]
    rw [hu]
    simp [hmiss, Int.not_lt.mpr hq]
  · intro users uid itemId u hu hmiss
    simp only [deleteCart]
    rw [hu]
  · intro users uid itemId u hu hmiss
    simp only [lDeleteCart]
    rw [hu]

/-- C6 amended witness: user 1 with an empty cart, itemId 7, quantity 2:
PATCH answers 404 in both revisions, DELETE answers 200 in both. -/
theorem missing_cart_line_patch_404_delete_200_witness :
    patchCart [⟨1, "u", "e", "p", [], 0⟩] 1 7 (some 2) =
      (404, [⟨1, "u", "e", "p", [], 0⟩]) ∧
    lPatchCart [⟨1, [], ⟨0⟩⟩] 1 7 (some 2) = (404, [⟨1, [], ⟨0⟩⟩]) ∧
    (deleteCart [⟨1, "u", "e", "p", [], 0⟩] 1 7).1 = 200 ∧
    (lDeleteCart [⟨1, [], ⟨0⟩⟩] 1 7).1 = 200 :=
  ⟨missing_cart_line_patch_404_delete_200.1 [⟨1, "u", "e", "p", [], 0⟩] 1 7 2
      ⟨1, "u", "e", "p", [], 0⟩ (by decide) (by decide) (by decide),
    missing_cart_line_patch_404_delete_200.2.1 [⟨1, [], ⟨0⟩⟩] 1 7 2 ⟨1, [], ⟨0⟩⟩
      (by decide) (by decide) (by decide),
    missing_cart_line_patch_404_delete_200.2.2.1 [⟨1, "u", "e", "p", [], 0⟩] 1 7
      ⟨1, "u", "e", "p", [], 0⟩ (by decide) (by decide),
    missing_cart_line_patch_404_delete_200.2.2.2 [⟨1, [], ⟨0⟩⟩] 1 7 ⟨1, [], ⟨0⟩⟩
      (by decide) (by decide)⟩

theorem addToCart_shape (users : List MUser) (uid : Int) (i? q? : Option Int) :
    ((addToCart users uid i? q?).1 ≠ 200 ∧ (addToCart users uid i? q?).2 = users) ∨
    ∃ u i q, users.find? (fun x => x.id == uid) = some u ∧
      addToCart users uid i? q? =
        (200, updateFirst (fun x => x.id == uid) (addMut i q) users) := by
  simp only [addToCart]
  split
  · exact Or.inl ⟨by simp, rfl⟩
  · split
    · exact Or.inl ⟨by simp, rfl⟩
    · split
      · exact Or.inl ⟨by simp, rfl⟩
      · rename_i u heq
        exact Or.inr ⟨u, _, _, heq, rfl⟩

theorem patchCart_shape (users : List MUser) (uid itemId : Int) (q? : Option Int) :
    ((patchCart users uid itemId q?).1 ≠ 200 ∧ (patchCart users uid itemId q?).2 = users) ∨
    ∃ u q, users.find? (fun x => x.id == uid) = some u ∧
      patchCart users uid itemId q? =
        (200, updateFirst (fun x => x.id == uid) (patchMut itemId q) users) := by
  simp only [patchCart]
  split
  · exact Or.inl ⟨by simp, rfl⟩
  · split
    · exact Or.inl ⟨by simp, rfl⟩
    · split
      · exact Or.inl ⟨by simp, rfl⟩
      · rename_i u heq
        split
        · exact Or.inl ⟨by simp, rfl⟩
        · exact Or.inr ⟨u, _, heq, rfl⟩

theorem deleteCart_shape (users : List MUser) (uid itemId : Int) :
    ((deleteCart users uid itemId).1 ≠ 200 ∧ (deleteCart users uid itemId).2 = users) ∨
    ∃ u, users.find? (fun x => x.id == uid) = some u ∧
      deleteCart users uid itemId =
        (200, updateFirst (fun x => x.id == uid) (delMut itemId) users) := by
  simp only [deleteCart]
  split
  · exact Or.inl ⟨by simp, rfl⟩
  · rename_i u heq
    exact Or.inr ⟨u, heq, rfl⟩

theorem apiAddToCart_shape (products : List Product) (users : List LUser) (uid : Int)
    (i? q? : Option Int) :
    ((apiAddToCart products users uid i? q?).1 ≠ 201 ∧
      (apiAddToCart products users uid i? q?).2 = users) ∨
    ∃ u i q, users.find? (fun x => x.id == uid) = some u ∧
      apiAddToCart products users uid i? q? =
        (201, updateFirst (fun x => x.id == uid) (lAddMut i q) users) := by
  simp only [apiAddToCart]
  split
  · exact Or.inl ⟨by simp, rfl⟩
  · split
    · exact Or.inl ⟨by simp, rfl⟩
    · split
      · exact Or.inl ⟨by simp, rfl⟩
      · split
        · exact Or.inl ⟨by simp, rfl⟩
        · rename_i u heq
          split
          · exact Or.inl ⟨by simp, rfl⟩
          · exact Or.inr ⟨u, _, _, heq, rfl⟩

theorem checkout_shape (products : List Product) (users : List LUser) (uid : Int) :
    ((checkout products users uid).1 ≠ CheckoutResp.success ∧
      (checkout products users uid).2.2 = users) ∨
    ∃ u, users.find? (fun x => x.id == uid) = some u ∧
      (checkout products users uid).2.2 =
        updateFirst (fun x => x.id == uid) clearCartMut users := by
  simp only [checkout]
  split
  · exact Or.inl ⟨by simp, rfl⟩
  · rename_i u heq
    split
    · exact Or.inl ⟨by simp, rfl⟩
    · split
      · rename_i e he
        refine Or.inl ⟨?_, rfl⟩
        intro hs
        have h400 := findCartError_some_status products u.cartItems e he
        have he2 : e = CheckoutResp.success := hs
        rw [he2] at h400
        simp [CheckoutResp.statusCode] at h400
      · exact Or.inr ⟨u, heq, rfl⟩

/-- C7: after every successful cart mutation — add (both revisions),
quantity update including quantity 0, remove, checkout — the stored
derived cart-count field of the affected user equals the sum of the
quantities of that user's remaining cart lines. -/
theorem cart_count_recomputed_after_mutations :
    (∀ (users : List MUser) (uid : Int) (i? q? : Option Int) (u2 : MUser),
      (addToCart users uid i? q?).1 = 200 →
      (addToCart users uid i? q?).2.find? (fun x => x.id == uid) = some u2 →
      u2.CartItemsNumber = (u2.cartItems.map (fun c => c.quantity)).sum) ∧
    (∀ (users : List MUser) (uid itemId : Int) (q? : Option Int) (u2 : MUser),
      (patchCart users uid itemId q?).1 = 200 →
      (patchCart users uid itemId q?).2.find? (fun x => x.id == uid) = some u2 →
      u2.CartItemsNumber = (u2.cartItems.map (fun c => c.quantity)).sum) ∧
    (∀ (users : List MUser) (uid itemId : Int) (u2 : MUser),
      (deleteCart users uid itemId).1 = 200 →
      (deleteCart users uid itemId).2.find? (fun x => x.id == uid) = some u2 →
      u2.CartItemsNumber = (u2.cartItems.map (fun c => c.quantity)).sum) ∧
    (∀ (products : List Product) (users : List LUser) (uid : Int)
        (i? q? : Option Int) (u2 : LUser),
      (apiAddToCart products users uid i? q?).1 = 201 →
      (apiAddToCart products users uid i? q?).2.find? (fun x => x.id == uid) = some u2 →
      u2.CartItemsLength.items = (u2.cartItems.map (fun c => c.quantity)).sum) ∧
    (∀ (products : List Product) (users : List LUser) (uid : Int) (u2 : LUser),
      (checkout products users uid).1 = CheckoutResp.success →
      (checkout products users uid).2.2.find? (fun x => x.id == uid) = some u2 →
      u2.CartItemsLength.items = (u2.cartItems.map (fun c => c.quantity)).sum) := by
  refine ⟨?_, ?_, ?_, ?_, ?_⟩
  · intro users uid i? q? u2 h200 hfind
    rcases addToCart_shape users uid i? q? with ⟨hne, _⟩ | ⟨u, i, q, hu, heq⟩
    · exact absurd h200 hne
    · rw [heq] at hfind
      rw [find?_updateFirst_pos (fun x => x.id == uid) (addMut i q) (fun x => rfl) users,
        hu] at hfind
      cases hfind
      exact calculateCartItemsNumber_eq_sum _
  · intro users uid itemId q? u2 h200 hfind
    rcases patchCart_shape users uid itemId q? with ⟨hne, _⟩ | ⟨u, q, hu, heq⟩
    · exact absurd h200 hne
    · rw [heq] at hfind
      rw [find?_updateFirst_pos (fun x => x.id == uid) (patchMut itemId q)
        (fun x => rfl) users, hu] at hfind
      cases hfind
      exact calculateCartItemsNumber_eq_sum _
  · intro users uid itemId u2 h200 hfind
    rcases deleteCart_shape users uid itemId with ⟨hne, _⟩ | ⟨u, hu, heq⟩
    · exact absurd h200 hne
    · rw [heq] at hfind
      rw [find?_updateFirst_pos (fun x => x.id == uid) (delMut itemId)
        (fun x => rfl) users, hu] at hfind
      cases hfind
      exact calculateCartItemsNumber_eq_sum _
  · intro products users uid i? q? u2 h201 hfind
    rcases apiAddToCart_shape products users uid i? q? with ⟨hne, _⟩ | ⟨u, i, q, hu, heq⟩
    · exact absurd h201 hne
    · rw [heq] at hfind
      rw [find?_updateFirst_pos (fun x => x.id == uid) (lAddMut i q)
        (fun x => rfl) users, hu] at hfind
      cases hfind
      exact calculateCartItemsNumber_eq_sum _
  · intro products users uid u2 hsucc hfind
    rcases checkout_shape products users uid with ⟨hne, _⟩ | ⟨u, hu, heq⟩
    · exact absurd hsucc hne
    · rw [heq] at hfind
      rw [find?_updateFirst_pos (fun x => x.id == uid) clearCartMut
        (fun x => rfl) users, hu] at hfind
      cases hfind
      rfl

/-- C7 witness: a concrete run of each mutation — add on both revisions,
quantity update to 0, remove, checkout — where the resulting stored
counter equals the sum of the remaining quantities. -/
theorem cart_count_recomputed_witness :
    (MUser.CartItemsNumber ⟨1, "u", "e", "p", [⟨1, 5⟩], 5⟩ =
      (([⟨1, 5⟩] : List CartItem).map (fun c => c.quantity)).sum) ∧
    (MUser.CartItemsNumber ⟨1, "u", "e", "p", [⟨2, 3⟩], 3⟩ =
      (([⟨2, 3⟩] : List CartItem).map (fun c => c.quantity)).sum) ∧
    (MUser.CartItemsNumber ⟨1, "u", "e", "p", [], 0⟩ =
      (([] : List CartItem).map (fun c => c.quantity)).sum) ∧
    (CartLen.items (LUser.CartItemsLength ⟨1, [⟨1, 3⟩], ⟨3⟩⟩) =
      (([⟨1, 3⟩] : List CartItem).map (fun c => c.quantity)).sum) ∧
    (CartLen.items (LUser.CartItemsLength ⟨1, [], ⟨0⟩⟩) =
      (([] : List CartItem).map (fun c => c.quantity)).sum) :=
  ⟨cart_count_recomputed_after_mutations.1 [⟨1, "u", "e", "p", [⟨1, 2⟩], 2⟩] 1
      (some 1) (some 3) ⟨1, "u", "e", "p", [⟨1, 5⟩], 5⟩ (by decide) (by decide),
    cart_count_recomputed_after_mutations.2.1
      [⟨1, "u", "e", "p", [⟨1, 2⟩, ⟨2, 3⟩], 5⟩] 1 1 (some 0)
      ⟨1, "u", "e", "p", [⟨2, 3⟩], 3⟩ (by decide) (by decide),
    cart_count_recomputed_after_mutations.2.2.1 [⟨1, "u", "e", "p", [⟨7, 2⟩], 2⟩] 1 7
      ⟨1, "u", "e", "p", [], 0⟩ (by decide) (by decide),
    cart_count_recomputed_after_mutations.2.2.2.1 [⟨1, some 9, []⟩] [⟨1, [⟨1, 1⟩], ⟨1⟩⟩]
      1 (some 1) (some 2) ⟨1, [⟨1, 3⟩], ⟨3⟩⟩ (by decide) (by decide),
    cart_count_recomputed_after_mutations.2.2.2.2 [⟨1, some 9, []⟩] [⟨1, [⟨1, 1⟩], ⟨1⟩⟩]
      1 ⟨1, [], ⟨0⟩⟩ (by decide) (by decide)⟩

/-- C8: for every product id that resolves to a product, the
single-product read answers 200 with the product annotated by a rating
that is `none` when the comment list is empty and otherwise the arithmetic
mean of the comments' ratings rounded to two decimal places. -/
theorem getProduct_rating_spec (products : List Product) (id : Int) (p : Product)
    (h : products.find? (fun x => x.id == id) = some p) :
    getProduct products id = (200, some (p, averageRating p.comments)) ∧
    (p.comments = [] → averageRating p.comments = none) ∧
    (p.comments ≠ [] → averageRating p.comments =
      some (round2 ((p.comments.map (fun c => (c.rating : ℚ))).sum /
        (p.comments.length : ℚ)))) := by
  refine ⟨?_, ?_, ?_⟩
  · unfold getProduct
    rw [h]
  · intro he
    simp [averageRating, he]
  · intro hne
    simp only [averageRating, isEmpty_false_of_ne_nil hne, Bool.false_eq_true,
      if_false, ratingFold_eq_sum]

/-- C8 witness: a product with comments rated 4 and 5 is returned with the
rounded mean of its ratings; a comment-less product is returned with
rating `none`. -/
theorem getProduct_rating_witness :
    (getProduct [⟨1, some 5, [⟨"a", "t", 4⟩, ⟨"b", "u", 5⟩]⟩] 1 =
      (200, some (⟨1, some 5, [⟨"a", "t", 4⟩, ⟨"b", "u", 5⟩]⟩,
        averageRating [⟨"a", "t", 4⟩, ⟨"b", "u", 5⟩])) ∧
     averageRating [⟨"a", "t", 4⟩, ⟨"b", "u", 5⟩] =
      some (round2 ((([⟨"a", "t", 4⟩, ⟨"b", "u", 5⟩] : List Comment).map
          (fun c => (c.rating : ℚ))).sum /
        (([⟨"a", "t", 4⟩, ⟨"b", "u", 5⟩] : List Comment).length : ℚ)))) ∧
    averageRating ([] : List Comment) = none :=
  ⟨⟨(getProduct_rating_spec [⟨1, some 5, [⟨"a", "t", 4⟩, ⟨"b", "u", 5⟩]⟩] 1
        ⟨1, some 5, [⟨"a", "t", 4⟩, ⟨"b", "u", 5⟩]⟩ (by decide)).1,
      (getProduct_rating_spec [⟨1, some 5, [⟨"a", "t", 4⟩, ⟨"b", "u", 5⟩]⟩] 1
        ⟨1, some 5, [⟨"a", "t", 4⟩, ⟨"b", "u", 5⟩]⟩ (by decide)).2.2 (by decide)⟩,
    (getProduct_rating_spec [⟨2, some 5, []⟩] 2 ⟨2, some 5, []⟩ (by decide)).2.1 rfl⟩

/-- C9: a read returns the cached snapshot exactly when the snapshot
exists and its age is below the fixed TTL and otherwise returns the
backing file while refreshing the cache; every write replaces the cache
by the written collection with the timestamp reset, so a read after a
write returns the written value. -/
theorem cache_read_write_spec :
    (∀ (α : Type) (file : α) (cache : Cache α) (now : Int) (d : α),
      cache.data = some d → now - cache.time < CACHE_TTL →
      readResource file cache now = (d, cache)) ∧
    (∀ (α : Type) (file : α) (cache : Cache α) (now : Int),
      isCacheValid cache now = false →
      readResource file cache now = (file, ⟨some file, now⟩)) ∧
    (∀ (α : Type) (dataVal : α) (now : Int),
      writeResource dataVal now = (dataVal, ⟨some dataVal, now⟩)) ∧
    (∀ (α : Type) (dataVal : α) (now now2 : Int),
      (readResource (writeResource dataVal now).1 (writeResource dataVal now).2 now2).1 =
        dataVal) := by
  refine ⟨?_, ?_, ?_, ?_⟩
  · intro α file cache now d hd hlt
    have hv : isCacheValid cache now = true := by
      simp [isCacheValid, hd, hlt]
    simp [readResource, hv, hd]
  · intro α file cache now hv
    simp [readResource, hv]
  · intro α dataVal now
    rfl
  · intro α dataVal now now2
    by_cases hv : isCacheValid (⟨some dataVal, now⟩ : Cache α) now2 = true
    · simp [readResource, writeResource, hv]
    · simp [readResource, writeResource, hv]

/-- C9 witness: with the product collection as the resource, a warm cache
is served from the snapshot, a stale one from the file, and a write
followed by a read (here 6000 time units later, past the TTL) still yields
the written collection. -/
theorem cache_read_write_witness :
    readResource ([] : List Product) ⟨some [⟨1, some 1, []⟩], 0⟩ 100 =
      ([⟨1, some 1, []⟩], ⟨some [⟨1, some 1, []⟩], 0⟩) ∧
    readResource ([] : List Product) ⟨some [⟨1, some 1, []⟩], 0⟩ 6000 =
      ([], ⟨some [], 6000⟩) ∧
    writeResource ([⟨2, some 3, []⟩] : List Product) 50 =
      ([⟨2, some 3, []⟩], ⟨some [⟨2, some 3, []⟩], 50⟩) ∧
    (readResource (writeResource ([⟨2, some 3, []⟩] : List Product) 50).1
      (writeResource ([⟨2, some 3, []⟩] : List Product) 50).2 6050).1 = [⟨2, some 3, []⟩] :=
  ⟨cache_read_write_spec.1 (List Product) [] ⟨some [⟨1, some 1, []⟩], 0⟩ 100
      [⟨1, some 1, []⟩] rfl (by decide),
    cache_read_write_spec.2.1 (List Product) [] ⟨some [⟨1, some 1, []⟩], 0⟩ 6000
      (by decide),
    cache_read_write_spec.2.2.1 (List Product) [⟨2, some 3, []⟩] 50,
    cache_read_write_spec.2.2.2 (List Product) [⟨2, some 3, []⟩] 50 6050⟩

theorem le_maxId (users : List MUser) (u : MUser) (hu : u ∈ users) :
    u.id ≤ maxId users := by
  unfold maxId
  exact le_foldl_max _ 0 u.id (List.mem_map.mpr ⟨u, hu, rfl⟩)

/-- C10: for every registration request with a username of at least 3
characters, an email containing an at-sign and a password of at least 6
characters: a user whose stored email equals the lower-cased input email,
or whose username matches case-insensitively, makes the request answer 409
with the collection unchanged; otherwise a 201 response appends exactly
one user whose id is `max(existing ids, 0) + 1` — strictly above every
existing id, equal to 1 on an empty collection, and one greater than a
maximal existing id whenever all ids are non-negative — with an empty
cart and derived count 0. -/
theorem createUser_spec (users : List MUser) (un em pw : String)
    (h3 : 3 ≤ jsLength un) (hat : jsContainsChar em '@' = true)
    (h6 : 6 ≤ jsLength pw) :
    (∀ u0, users.find? (fun u => u.email == jsLower em) = some u0 →
      createUser users (some un) (some em) (some pw) = (409, users)) ∧
    (users.find? (fun u => u.email == jsLower em) = none →
      ∀ u1, users.find? (fun u => jsLower u.username == jsLower un) = some u1 →
        createUser users (some un) (some em) (some pw) = (409, users)) ∧
    (users.find? (fun u => u.email == jsLower em) = none →
      users.find? (fun u => jsLower u.username == jsLower un) = none →
      createUser users (some un) (some em) (some pw) =
        (201, users ++ [⟨maxId users + 1, jsTrim un,
          jsLower (jsTrim em), pw, [], 0⟩]) ∧
      (∀ u ∈ users, u.id < maxId users + 1) ∧
      (users = [] → maxId users + 1 = 1) ∧
      ((users ≠ [] ∧ ∀ u ∈ users, 0 ≤ u.id) →
        ∃ u0 ∈ users, maxId users + 1 = u0.id + 1 ∧ ∀ u ∈ users, u.id ≤ u0.id)) := by
  have hun : un ≠ "" := by
    intro he
    rw [he] at h3
    exact absurd h3 (by decide)
  have hem : em ≠ "" := by
    intro he
    rw [he] at hat
    exact absurd hat (by decide)
  have hpw : pw ≠ "" := by
    intro he
    rw [he] at h6
    exact absurd h6 (by decide)
  have hfalsy : (strFalsy (some un) || strFalsy (some em) || strFalsy (some pw)) = false := by
    simp [strFalsy, hun, hem, hpw]
  have hlen3 : ¬ jsLength un < 3 := Nat.not_lt.mpr h3
  have hlen6 : ¬ jsLength pw < 6 := Nat.not_lt.mpr h6
  refine ⟨?_, ?_, ?_⟩
  · intro u0 hdup
    simp [createUser, hfalsy, hlen3, hlen6, hat, hdup]
  · intro hmail u1 hdup
    simp [createUser, hfalsy, hlen3, hlen6, hat, hmail, hdup]
  · intro hmail hname
    refine ⟨?_, ?_, ?_, ?_⟩
    · simp [createUser, hfalsy, hlen3, hlen6, hat, hmail, hname]
    · intro u hu
      have : u.id ≤ maxId users := le_maxId users u hu
      omega
    · intro he
      rw [he]
      rfl
    · rintro ⟨hne, hnonneg⟩
      rcases foldl_max_attained (users.map (fun v => v.id)) 0 with hzero | ⟨m, hm, hfold⟩
      · cases users with
        | nil => exact absurd rfl hne
        | cons v vs =>
          have hvle : v.id ≤ maxId (v :: vs) :=
            le_maxId (v :: vs) v (List.mem_cons_self v vs)
          have hv0 : 0 ≤ v.id := hnonneg v (List.mem_cons_self v vs)
          have hmax0 : maxId (v :: vs) = 0 := hzero
          refine ⟨v, List.mem_cons_self v vs, by omega, ?_⟩
          intro u hu
          have := le_maxId (v :: vs) u hu
          omega
      · obtain ⟨u0, hu0, hid⟩ := List.mem_map.mp hm
        refine ⟨u0, hu0, ?_, ?_⟩
        · have : maxId users = m := hfold
          omega
        · intro u hu
          have h1 := le_maxId users u hu
          have h2 : maxId users = m := hfold
          omega

/-- C10 witness: against a collection holding alice (id 1), a duplicate
email in different case answers 409 unchanged, and a fresh registration
appends bob with id 2, trimmed lower-cased email, empty cart and count
0. -/
theorem createUser_witness :
    createUser [⟨1, "alice", "a@x", "secret1", [], 0⟩]
      (some "bob") (some "A@x") (some "hunter2") =
      (409, [⟨1, "alice", "a@x", "secret1", [], 0⟩]) ∧
    createUser [⟨1, "alice", "a@x", "secret1", [], 0⟩]
      (some " bob ") (some " B@y ") (some "hunter2") =
      (201, [⟨1, "alice", "a@x", "secret1", [], 0⟩,
        ⟨maxId [⟨1, "alice", "a@x", "secret1", [], 0⟩] + 1, jsTrim " bob ",
          jsLower (jsTrim " B@y "), "hunter2", [], 0⟩]) :=
  ⟨(createUser_spec [⟨1, "alice", "a@x", "secret1", [], 0⟩] "bob" "A@x" "hunter2"
      (by decide) (by decide) (by decide)).1 ⟨1, "alice", "a@x", "secret1", [], 0⟩
      (by decide),
    ((createUser_spec [⟨1, "alice", "a@x", "secret1", [], 0⟩] " bob " " B@y " "hunter2"
      (by decide) (by decide) (by decide)).2.2 (by decide) (by decide)).1⟩

end Shop
